import Mathlib

/-!
Verification of the trail-litter simulation (src/simultation.py).

The script simulates, over a fixed horizon of days, litter accumulation and
trail-quality evolution under two hard-coded scenarios ("baseline" and
"alternative") that share the same daily tourist series.  Python floats are
embedded as exact rationals; the daily tourist series is an injected function
`ℕ → ℚ` (the script samples it from a seeded normal distribution and clips it
to a floor of 50, which we model with `clipSeries`).
-/

namespace Simulation

/-- Number of days to simulate (src line 13: `days = 365`). -/
def days : ℕ := 365

/-- The six per-scenario parameters bound at the top of each `run_*_simulation`
function, plus the module-level constant `litter_per_tourist` (src line 16)
that both loops read.  The ceiling for trail quality is the literal `100`
inside the loops, so it is not a parameter. -/
structure Params where
  litter_per_tourist : ℚ
  clean_up_efficiency : ℚ
  clean_up_frequency : ℕ
  erosion_rate : ℚ
  maintenance_frequency : ℕ
  maintenance_improvement : ℚ
  min_quality : ℚ

/-- One row of the per-day data table each loop appends to (src lines 87-95):
`Day` is the 1-based day number `day + 1`. -/
structure DayRecord where
  day : ℕ
  tourists : ℚ
  litter_added : ℚ
  litter_removed : ℚ
  total_litter : ℚ
  degradation : ℚ
  maintenance : ℚ
  trail_quality : ℚ

/-- Body of the baseline loop (src lines 56-95) for one 0-based `day`, given
the previous day's post-cleanup litter and post-maintenance quality (for
`day = 0` the loop uses `litter = 0` and `quality = 100` via its
`if day > 0 else` conditionals):
litter accrues as `tourists * litter_per_tourist`; on days with
`day % clean_up_frequency == 0` the fraction `clean_up_efficiency` of the
accrued total is removed; quality drops by `tourists * erosion_rate`, is
floored at `min_quality`, and on days with
`day % maintenance_frequency == 0` is boosted by `maintenance_improvement`
and capped at `100`. -/
def step (p : Params) (day : ℕ) (tourists prev_litter prev_quality : ℚ) : DayRecord :=
  let litter_added := tourists * p.litter_per_tourist
  let accrued := prev_litter + litter_added
  let litter_removed :=
    if day % p.clean_up_frequency = 0 then accrued * p.clean_up_efficiency else 0
  let total_litter :=
    if day % p.clean_up_frequency = 0 then accrued - accrued * p.clean_up_efficiency
    else accrued
  let degradation := tourists * p.erosion_rate
  let new_quality := prev_quality - degradation
  let floored := max new_quality p.min_quality
  let maintenance :=
    if day % p.maintenance_frequency = 0 then p.maintenance_improvement else 0
  let trail_quality :=
    if day % p.maintenance_frequency = 0 then min (floored + p.maintenance_improvement) 100
    else floored
  ⟨day + 1, tourists, litter_added, litter_removed, total_litter, degradation,
    maintenance, trail_quality⟩

/-- The `(total_litter, trail_quality)` state the baseline loop threads into
0-based day `n`: `(0, 100)` before day 0, and afterwards the previous
record's post-cleanup litter and post-maintenance quality. -/
def stateAfter (p : Params) (ts : ℕ → ℚ) : ℕ → ℚ × ℚ
  | 0 => (0, 100)
  | n + 1 =>
    let s := stateAfter p ts n
    let r := step p n (ts n) s.1 s.2
    (r.total_litter, r.trail_quality)

/-- The `DayRecord` the baseline loop stores for 0-based day `i`. -/
def record (p : Params) (ts : ℕ → ℚ) (i : ℕ) : DayRecord :=
  step p i (ts i) (stateAfter p ts i).1 (stateAfter p ts i).2

/-- The ordered `DayRecord` sequence of a baseline-loop run over `n` days. -/
def runScenario (p : Params) (ts : ℕ → ℚ) (n : ℕ) : List DayRecord :=
  (List.range n).map (record p ts)

/-- Body of the alternative loop (src lines 136-175), translated separately:
the source duplicates the whole loop in `run_alternative_simulation`. -/
def stepAlt (p : Params) (day : ℕ) (tourists prev_litter prev_quality : ℚ) : DayRecord :=
  let litter_added := tourists * p.litter_per_tourist
  let accrued := prev_litter + litter_added
  let litter_removed :=
    if day % p.clean_up_frequency = 0 then accrued * p.clean_up_efficiency else 0
  let total_litter :=
    if day % p.clean_up_frequency = 0 then accrued - accrued * p.clean_up_efficiency
    else accrued
  let degradation := tourists * p.erosion_rate
  let new_quality := prev_quality - degradation
  let floored := max new_quality p.min_quality
  let maintenance :=
    if day % p.maintenance_frequency = 0 then p.maintenance_improvement else 0
  let trail_quality :=
    if day % p.maintenance_frequency = 0 then min (floored + p.maintenance_improvement) 100
    else floored
  ⟨day + 1, tourists, litter_added, litter_removed, total_litter, degradation,
    maintenance, trail_quality⟩

/-- State threading of the alternative loop (src lines 136-175). -/
def stateAfterAlt (p : Params) (ts : ℕ → ℚ) : ℕ → ℚ × ℚ
  | 0 => (0, 100)
  | n + 1 =>
    let s := stateAfterAlt p ts n
    let r := stepAlt p n (ts n) s.1 s.2
    (r.total_litter, r.trail_quality)

/-- The `DayRecord` the alternative loop stores for 0-based day `i`. -/
def recordAlt (p : Params) (ts : ℕ → ℚ) (i : ℕ) : DayRecord :=
  stepAlt p i (ts i) (stateAfterAlt p ts i).1 (stateAfterAlt p ts i).2

/-- The ordered `DayRecord` sequence of an alternative-loop run over `n` days. -/
def runScenarioAlt (p : Params) (ts : ℕ → ℚ) (n : ℕ) : List DayRecord :=
  (List.range n).map (recordAlt p ts)

/-- Baseline parameters (src lines 33-38), with the shared
`litter_per_tourist = 0.01` (src line 16). -/
def baselineParams : Params := ⟨1/100, 7/10, 7, 1/10000, 30, 10, 1⟩

/-- Alternative parameters (src lines 113-118), with the shared
`litter_per_tourist = 0.01` (src line 16). -/
def alternativeParams : Params := ⟨1/100, 9/10, 3, 1/10000, 21, 15, 1⟩

/-- Arithmetic mean, as `pandas` computes it for the stored columns. -/
def mean (xs : List ℚ) : ℚ := xs.sum / xs.length

/-- Return value of `run_baseline_simulation` (src line 102): mean of the
`Total_Litter` column, mean of the `Trail_Quality` column, and the data table. -/
def run_baseline_simulation (ts : ℕ → ℚ) : ℚ × ℚ × List DayRecord :=
  let df := runScenario baselineParams ts days
  (mean (df.map DayRecord.total_litter), mean (df.map DayRecord.trail_quality), df)

/-- Return value of `run_alternative_simulation` (src line 182). -/
def run_alternative_simulation (ts : ℕ → ℚ) : ℚ × ℚ × List DayRecord :=
  let df := runScenarioAlt alternativeParams ts days
  (mean (df.map DayRecord.total_litter), mean (df.map DayRecord.trail_quality), df)

/-- The clip applied to the sampled tourist series (src line 22:
`np.clip(daily_tourists, 50, None)`). -/
def clipSeries (raw : ℕ → ℚ) : ℕ → ℚ := fun d => max (raw d) 50

/-- One row of the `comparison` table (src lines 193-197). -/
structure ComparisonRow where
  scenario : String
  avg_litter_kg : ℚ
  avg_quality_pct : ℚ

/-- The column names of the `comparison` table (src lines 193-197). -/
def comparisonColumns : List String := ["Scenario", "Avg_Litter_kg", "Avg_Quality_pct"]

/-- The `comparison` table (src lines 193-197): one row per scenario, built
from the two means each run returns. -/
def comparison (ts : ℕ → ℚ) : List ComparisonRow :=
  [⟨"Baseline", (run_baseline_simulation ts).1, (run_baseline_simulation ts).2.1⟩,
   ⟨"Alternative", (run_alternative_simulation ts).1, (run_alternative_simulation ts).2.1⟩]

/-- The only state shared between the two runs at src lines 188-189: the
module-level, read-only `daily_tourists` series. -/
structure SimEnv where
  daily_tourists : ℕ → ℚ

/-- `run_baseline_simulation` as it acts on the shared environment: it reads
`daily_tourists` and writes nothing back (src lines 56-95 never assign to it). -/
def runBaselineShared (env : SimEnv) : (ℚ × ℚ × List DayRecord) × SimEnv :=
  (run_baseline_simulation env.daily_tourists, env)

/-- `run_alternative_simulation` as it acts on the shared environment. -/
def runAlternativeShared (env : SimEnv) : (ℚ × ℚ × List DayRecord) × SimEnv :=
  (run_alternative_simulation env.daily_tourists, env)

/-- Parameters of the concrete one-week scenario of the spec: horizon 7,
100 visitors/day, `litter_per_visitor = 1`, weekly cleanup at efficiency 0.5,
no erosion, no maintenance effect. -/
def weekParams : Params := ⟨1, 1/2, 7, 0, 30, 0, 1⟩

/-- Modelled from the spec: the repository has no validation code at all — the
scenario parameters are hard-coded module constants (src lines 13-16, 33-38,
113-118) — so the distinct failure reasons of spec §4.2 are followed. -/
inductive ValidationError
  | nonpositiveHorizon
  | negativeLitterPerVisitor
  | cleanupEfficiencyOutOfRange
  | cleanupFrequencyTooSmall
  | negativeErosionRate
  | maintenanceFrequencyTooSmall
  | negativeMaintenanceBoost
  | qualityBoundsInverted
deriving DecidableEq

/-- Modelled from the spec: the validated parameter bundle of spec §3 — the
source has no such value object, only hard-coded constants. -/
structure ScenarioConfig where
  horizon_days : ℤ
  litter_per_visitor : ℚ
  cleanup_frequency_days : ℤ
  cleanup_efficiency : ℚ
  erosion_rate : ℚ
  maintenance_frequency_days : ℤ
  maintenance_boost : ℚ
  min_quality : ℚ
  max_quality : ℚ

/-- Modelled from the spec: `validate(config) -> ok | ValidationError` of spec
§4.2, absent from the source; it checks the fields in the spec's fixed order
and returns the distinct error of the first failing check.  As a Lean
function it is total and has no side effects. -/
def validate (c : ScenarioConfig) : Except ValidationError Unit :=
  if c.horizon_days ≤ 0 then .error .nonpositiveHorizon
  else if c.litter_per_visitor < 0 then .error .negativeLitterPerVisitor
  else if c.cleanup_efficiency < 0 ∨ 1 < c.cleanup_efficiency then
    .error .cleanupEfficiencyOutOfRange
  else if c.cleanup_frequency_days < 1 then .error .cleanupFrequencyTooSmall
  else if c.erosion_rate < 0 then .error .negativeErosionRate
  else if c.maintenance_frequency_days < 1 then .error .maintenanceFrequencyTooSmall
  else if c.maintenance_boost < 0 then .error .negativeMaintenanceBoost
  else if c.max_quality < c.min_quality then .error .qualityBoundsInverted
  else .ok ()

/-- The state threaded into day `i + 1` is day `i`'s stored litter and quality. -/
lemma stateAfter_succ (p : Params) (ts : ℕ → ℚ) (i : ℕ) :
    stateAfter p ts (i + 1) = ((record p ts i).total_litter, (record p ts i).trail_quality) :=
  rfl

/-- The two loop bodies are the same function of the parameters and inputs. -/
lemma stepAlt_eq_step : @stepAlt = @step := rfl

/-- The two loops thread identical states. -/
lemma stateAfterAlt_eq (p : Params) (ts : ℕ → ℚ) : ∀ n, stateAfterAlt p ts n = stateAfter p ts n
  | 0 => rfl
  | n + 1 => by
    simp only [stateAfterAlt, stateAfter, stateAfterAlt_eq p ts n, stepAlt_eq_step]

/-- The two loops store identical records. -/
lemma recordAlt_eq (p : Params) (ts : ℕ → ℚ) (i : ℕ) : recordAlt p ts i = record p ts i := by
  simp only [recordAlt, record, stateAfterAlt_eq, stepAlt_eq_step]

/-- C1: for every 0-based day `i` (1-based day `d = i + 1`), the stored
`litter_added` is `tourists * litter_per_tourist`, the stored `total_litter`
is the previous day's total plus `litter_added` minus `litter_removed`, the
total before day 1 is `0`, and the total threaded into the next day is the
stored one — the litter-conservation identity of the spec. -/
theorem litter_conservation (p : Params) (ts : ℕ → ℚ) (i : ℕ) :
    (record p ts i).litter_added = ts i * p.litter_per_tourist ∧
    (record p ts i).total_litter =
      (stateAfter p ts i).1 + (record p ts i).litter_added - (record p ts i).litter_removed ∧
    (stateAfter p ts 0).1 = 0 ∧
    (stateAfter p ts (i + 1)).1 = (record p ts i).total_litter := by
  refine ⟨rfl, ?_, rfl, rfl⟩
  unfold record step
  by_cases h : i % p.clean_up_frequency = 0 <;> simp [h]

/-- C3: the stored `litter_removed` of 0-based day `i` (1-based day
`d = i + 1`, so `i % k = (d - 1) % k`) equals `clean_up_efficiency` times the
post-accrual litter when `i % clean_up_frequency = 0`, and `0` on every other
day; hence `litter_removed > 0` can only happen on cadence days. -/
theorem cleanup_cadence (p : Params) (ts : ℕ → ℚ) (i : ℕ) :
    (record p ts i).litter_removed =
      if i % p.clean_up_frequency = 0 then
        ((stateAfter p ts i).1 + (record p ts i).litter_added) * p.clean_up_efficiency
      else 0 := by
  unfold record step
  by_cases h : i % p.clean_up_frequency = 0 <;> simp [h]

/-- C5 counterexample: under the code's convention (cleanup when the 0-based
day index satisfies `day % 7 = 0`, i.e. 1-based `(d - 1) % 7 = 0`, so day 1
triggers but day 7 does not), the one-week scenario does NOT produce the
total-litter sequence `[50, 150, 250, 350, 450, 550, 350]` claimed. -/
theorem week_sequence_counterexample :
    (runScenario weekParams (fun _ => 100) 7).map DayRecord.total_litter ≠
      [50, 150, 250, 350, 450, 550, 350] := by
  norm_num [runScenario, List.range_succ, record, stateAfter, step, weekParams]

/-- C5 amended: under the day-1-triggers convention the loop produces the
total-litter sequence `[50, 150, 250, 350, 450, 550, 650]`: day 1 halves
100 to 50, and no later day of the week is a cleanup day. -/
theorem week_sequence :
    (runScenario weekParams (fun _ => 100) 7).map DayRecord.total_litter =
      [50, 150, 250, 350, 450, 550, 650] := by
  norm_num [runScenario, List.range_succ, record, stateAfter, step, weekParams]

/-- C8: running the baseline scenario then the alternative one against the
shared environment (the read-only `daily_tourists` series) yields the same
two results as running them in the opposite order, and neither run changes
the environment. -/
theorem scenario_independence (env : SimEnv) :
    ((runBaselineShared env).1,
      (runAlternativeShared (runBaselineShared env).2).1) =
      ((runBaselineShared (runAlternativeShared env).2).1,
        (runAlternativeShared env).1) ∧
    (runBaselineShared env).2 = env ∧ (runAlternativeShared env).2 = env :=
  ⟨rfl, rfl, rfl⟩

/-- C9: abstracted over the policy parameters, the loop bodies of
`run_baseline_simulation` and `run_alternative_simulation` implement the same
function: for identical parameter values and the same visitor series they
produce identical `DayRecord` sequences, for every horizon. -/
theorem transition_loops_equivalent (p : Params) (ts : ℕ → ℚ) (n : ℕ) :
    runScenarioAlt p ts n = runScenario p ts n := by
  unfold runScenarioAlt runScenario
  exact List.map_congr_left fun i _ => recordAlt_eq p ts i

/-- One transition keeps litter nonnegative and quality between the floor and
the hard-coded ceiling `100`, given in-range parameters, a nonnegative
tourist count, and a previous state already inside the bounds. -/
lemma step_preserves (p : Params) (h0 : 0 ≤ p.litter_per_tourist)
    (h1 : 0 ≤ p.clean_up_efficiency) (h2 : p.clean_up_efficiency ≤ 1)
    (h3 : 0 ≤ p.erosion_rate) (h4 : 0 ≤ p.maintenance_improvement)
    (h5 : p.min_quality ≤ 100) (d : ℕ) (t pl pq : ℚ)
    (ht : 0 ≤ t) (hpl : 0 ≤ pl) (hpq : pq ≤ 100) :
    0 ≤ (step p d t pl pq).total_litter ∧
      p.min_quality ≤ (step p d t pl pq).trail_quality ∧
      (step p d t pl pq).trail_quality ≤ 100 := by
  have hadd : 0 ≤ t * p.litter_per_tourist := mul_nonneg ht h0
  have hdeg : 0 ≤ t * p.erosion_rate := mul_nonneg ht h3
  have hacc : 0 ≤ pl + t * p.litter_per_tourist := by linarith
  have hfl : p.min_quality ≤ max (pq - t * p.erosion_rate) p.min_quality :=
    le_max_right _ _
  have hfu : max (pq - t * p.erosion_rate) p.min_quality ≤ 100 :=
    max_le (by linarith) h5
  unfold step
  by_cases hc : d % p.clean_up_frequency = 0 <;>
    by_cases hm : d % p.maintenance_frequency = 0 <;>
      simp only [hc, hm, if_true, if_false, ite_true, ite_false]
  · exact ⟨by nlinarith, le_min (by linarith) h5, min_le_right _ _⟩
  · exact ⟨by nlinarith, hfl, hfu⟩
  · exact ⟨hacc, le_min (by linarith) h5, min_le_right _ _⟩
  · exact ⟨hacc, hfl, hfu⟩

/-- The state threaded between days stays inside the bounds. -/
lemma state_invariant (p : Params) (h0 : 0 ≤ p.litter_per_tourist)
    (h1 : 0 ≤ p.clean_up_efficiency) (h2 : p.clean_up_efficiency ≤ 1)
    (h3 : 0 ≤ p.erosion_rate) (h4 : 0 ≤ p.maintenance_improvement)
    (h5 : p.min_quality ≤ 100) (ts : ℕ → ℚ) (hts : ∀ d, 0 ≤ ts d) :
    ∀ i, 0 ≤ (stateAfter p ts i).1 ∧ (stateAfter p ts i).2 ≤ 100 := by
  intro i
  induction i with
  | zero => exact ⟨le_refl 0, by norm_num [stateAfter]⟩
  | succ n ih =>
    have h := step_preserves p h0 h1 h2 h3 h4 h5 n (ts n)
      (stateAfter p ts n).1 (stateAfter p ts n).2 (hts n) ih.1 ih.2
    exact ⟨h.1, h.2.2⟩

/-- C2: for every in-range parameter bundle (the spec's valid config, with the
quality ceiling being the hard-coded `100`) and every nonnegative visitor
series, every stored `DayRecord` has `total_litter ≥ 0` and
`min_quality ≤ trail_quality ≤ 100`; moreover a single transition from any
state inside the bounds lands back inside them. -/
theorem dayRecord_invariants (p : Params) (h0 : 0 ≤ p.litter_per_tourist)
    (h1 : 0 ≤ p.clean_up_efficiency) (h2 : p.clean_up_efficiency ≤ 1)
    (h3 : 0 ≤ p.erosion_rate) (h4 : 0 ≤ p.maintenance_improvement)
    (h5 : p.min_quality ≤ 100) (ts : ℕ → ℚ) (hts : ∀ d, 0 ≤ ts d) :
    (∀ i, 0 ≤ (record p ts i).total_litter ∧
      p.min_quality ≤ (record p ts i).trail_quality ∧
      (record p ts i).trail_quality ≤ 100) ∧
    (∀ (d : ℕ) (t pl pq : ℚ), 0 ≤ t → 0 ≤ pl → pq ≤ 100 →
      0 ≤ (step p d t pl pq).total_litter ∧
        p.min_quality ≤ (step p d t pl pq).trail_quality ∧
        (step p d t pl pq).trail_quality ≤ 100) := by
  constructor
  · intro i
    obtain ⟨hl, hq⟩ := state_invariant p h0 h1 h2 h3 h4 h5 ts hts i
    exact step_preserves p h0 h1 h2 h3 h4 h5 i (ts i) _ _ (hts i) hl hq
  · intro d t pl pq ht hpl hpq
    exact step_preserves p h0 h1 h2 h3 h4 h5 d t pl pq ht hpl hpq

/-- C2 witness: the invariants instantiated at the baseline parameters, a
constant series of 100 tourists, and day 2. -/
theorem dayRecord_invariants_witness :
    ((0:ℚ) ≤ baselineParams.litter_per_tourist ∧
      0 ≤ baselineParams.clean_up_efficiency ∧ baselineParams.clean_up_efficiency ≤ 1 ∧
      0 ≤ baselineParams.erosion_rate ∧ 0 ≤ baselineParams.maintenance_improvement ∧
      baselineParams.min_quality ≤ 100 ∧ (∀ d : ℕ, (0:ℚ) ≤ 100)) ∧
    (0 ≤ (record baselineParams (fun _ => 100) 2).total_litter ∧
      baselineParams.min_quality ≤ (record baselineParams (fun _ => 100) 2).trail_quality ∧
      (record baselineParams (fun _ => 100) 2).trail_quality ≤ 100) :=
  ⟨⟨by norm_num [baselineParams], by norm_num [baselineParams], by norm_num [baselineParams],
      by norm_num [baselineParams], by norm_num [baselineParams], by norm_num [baselineParams],
      fun _ => by norm_num⟩,
    (dayRecord_invariants baselineParams (by norm_num [baselineParams])
      (by norm_num [baselineParams]) (by norm_num [baselineParams])
      (by norm_num [baselineParams]) (by norm_num [baselineParams])
      (by norm_num [baselineParams]) (fun _ => 100) (fun _ => by norm_num)).1 2⟩

/-- C4: on a maintenance day (cadence on the 0-based index, 1-based
`(d - 1) % maintenance_frequency = 0`) the stored quality equals
`min (max (prev_quality - tourists * erosion_rate) min_quality
+ maintenance_improvement) 100`: the floor clamp precedes the boost and the
ceiling clamp follows it; and whenever the boost pushes the floored candidate
above `100`, the stored quality is exactly `100`. -/
theorem maintenance_clamp (p : Params) (ts : ℕ → ℚ) (i : ℕ)
    (h : i % p.maintenance_frequency = 0) :
    (record p ts i).trail_quality =
      min (max ((stateAfter p ts i).2 - ts i * p.erosion_rate) p.min_quality
        + p.maintenance_improvement) 100 ∧
    (100 < max ((stateAfter p ts i).2 - ts i * p.erosion_rate) p.min_quality
        + p.maintenance_improvement →
      (record p ts i).trail_quality = 100) := by
  have h1 : (record p ts i).trail_quality =
      min (max ((stateAfter p ts i).2 - ts i * p.erosion_rate) p.min_quality
        + p.maintenance_improvement) 100 := by
    unfold record step
    simp only [h, if_true, ite_true]
  exact ⟨h1, fun hgt => by rw [h1]; exact min_eq_right hgt.le⟩

/-- C4 witness: the clamp law instantiated at the baseline parameters, a
constant series of 100 tourists, and day 0 (a maintenance day). -/
theorem maintenance_clamp_witness :
    0 % baselineParams.maintenance_frequency = 0 ∧
    ((record baselineParams (fun _ => 100) 0).trail_quality =
      min (max ((stateAfter baselineParams (fun _ => 100) 0).2
          - (100:ℚ) * baselineParams.erosion_rate) baselineParams.min_quality
        + baselineParams.maintenance_improvement) 100 ∧
    (100 < max ((stateAfter baselineParams (fun _ => 100) 0).2
          - (100:ℚ) * baselineParams.erosion_rate) baselineParams.min_quality
        + baselineParams.maintenance_improvement →
      (record baselineParams (fun _ => 100) 0).trail_quality = 100)) :=
  ⟨rfl, maintenance_clamp baselineParams (fun _ => 100) 0 rfl⟩

set_option maxHeartbeats 2000000 in
/-- C6: the validation operation modelled from spec §4.2 accepts a config
exactly when every field is in range, and returns the distinct error of the
first failing check in the spec's fixed order: horizon, litter per visitor,
cleanup efficiency, cleanup frequency, erosion rate, maintenance frequency,
maintenance boost, quality bounds. -/
theorem validate_spec (c : ScenarioConfig) :
    (validate c = .ok () ↔
      (0 < c.horizon_days ∧ 0 ≤ c.litter_per_visitor ∧
        (0 ≤ c.cleanup_efficiency ∧ c.cleanup_efficiency ≤ 1) ∧
        1 ≤ c.cleanup_frequency_days ∧ 0 ≤ c.erosion_rate ∧
        1 ≤ c.maintenance_frequency_days ∧ 0 ≤ c.maintenance_boost ∧
        c.min_quality ≤ c.max_quality)) ∧
    (validate c = .error .nonpositiveHorizon ↔ ¬ 0 < c.horizon_days) ∧
    (validate c = .error .negativeLitterPerVisitor ↔
      (0 < c.horizon_days ∧ ¬ 0 ≤ c.litter_per_visitor)) ∧
    (validate c = .error .cleanupEfficiencyOutOfRange ↔
      (0 < c.horizon_days ∧ 0 ≤ c.litter_per_visitor ∧
        ¬ (0 ≤ c.cleanup_efficiency ∧ c.cleanup_efficiency ≤ 1))) ∧
    (validate c = .error .cleanupFrequencyTooSmall ↔
      (0 < c.horizon_days ∧ 0 ≤ c.litter_per_visitor ∧
        (0 ≤ c.cleanup_efficiency ∧ c.cleanup_efficiency ≤ 1) ∧
        ¬ 1 ≤ c.cleanup_frequency_days)) ∧
    (validate c = .error .negativeErosionRate ↔
      (0 < c.horizon_days ∧ 0 ≤ c.litter_per_visitor ∧
        (0 ≤ c.cleanup_efficiency ∧ c.cleanup_efficiency ≤ 1) ∧
        1 ≤ c.cleanup_frequency_days ∧ ¬ 0 ≤ c.erosion_rate)) ∧
    (validate c = .error .maintenanceFrequencyTooSmall ↔
      (0 < c.horizon_days ∧ 0 ≤ c.litter_per_visitor ∧
        (0 ≤ c.cleanup_efficiency ∧ c.cleanup_efficiency ≤ 1) ∧
        1 ≤ c.cleanup_frequency_days ∧ 0 ≤ c.erosion_rate ∧
        ¬ 1 ≤ c.maintenance_frequency_days)) ∧
    (validate c = .error .negativeMaintenanceBoost ↔
      (0 < c.horizon_days ∧ 0 ≤ c.litter_per_visitor ∧
        (0 ≤ c.cleanup_efficiency ∧ c.cleanup_efficiency ≤ 1) ∧
        1 ≤ c.cleanup_frequency_days ∧ 0 ≤ c.erosion_rate ∧
        1 ≤ c.maintenance_frequency_days ∧ ¬ 0 ≤ c.maintenance_boost)) ∧
    (validate c = .error .qualityBoundsInverted ↔
      (0 < c.horizon_days ∧ 0 ≤ c.litter_per_visitor ∧
        (0 ≤ c.cleanup_efficiency ∧ c.cleanup_efficiency ≤ 1) ∧
        1 ≤ c.cleanup_frequency_days ∧ 0 ≤ c.erosion_rate ∧
        1 ≤ c.maintenance_frequency_days ∧ 0 ≤ c.maintenance_boost ∧
        ¬ c.min_quality ≤ c.max_quality)) := by
  unfold validate
  split_ifs with h1 h2 h3 h4 h5 h6 h7 h8 <;>
    simp only [Except.error.injEq, Except.ok.injEq, reduceCtorEq, false_iff, true_iff,
      iff_false, iff_true, not_lt, not_le, not_or, not_and_or] at * <;>
    tauto

/-- C7 counterexample: the comparison table built at src lines 193-197 has
exactly the three columns `Scenario`, `Avg_Litter_kg`, `Avg_Quality_pct`, so
it cannot contain the five claimed fields — in particular no min/max
trail-quality field exists. -/
theorem comparison_columns_counterexample :
    comparisonColumns = ["Scenario", "Avg_Litter_kg", "Avg_Quality_pct"] ∧
      comparisonColumns.length ≠ 5 := ⟨rfl, by decide⟩

/-- C7 amended: each row of the comparison table carries the scenario name,
the mean of the run's stored `Total_Litter` values and the mean of its stored
`Trail_Quality` values; min and max trail quality are not part of the table
(they are only logged). -/
theorem comparison_summary (ts : ℕ → ℚ) :
    (comparison ts).map ComparisonRow.scenario = ["Baseline", "Alternative"] ∧
    (comparison ts).map ComparisonRow.avg_litter_kg =
      [mean ((runScenario baselineParams ts days).map DayRecord.total_litter),
        mean ((runScenarioAlt alternativeParams ts days).map DayRecord.total_litter)] ∧
    (comparison ts).map ComparisonRow.avg_quality_pct =
      [mean ((runScenario baselineParams ts days).map DayRecord.trail_quality),
        mean ((runScenarioAlt alternativeParams ts days).map DayRecord.trail_quality)] :=
  ⟨rfl, rfl, rfl⟩

/-- A day's added litter is positive and its stored total stays positive,
for positive `litter_per_tourist`, cleanup efficiency below 1, a positive
tourist series, and a nonnegative incoming litter state. -/
lemma record_litter_pos (p : Params) (h0 : 0 < p.litter_per_tourist)
    (h2 : p.clean_up_efficiency < 1) (ts : ℕ → ℚ) (hts : ∀ d, 0 < ts d)
    (i : ℕ) (hprev : 0 ≤ (stateAfter p ts i).1) :
    0 < (record p ts i).litter_added ∧ 0 < (record p ts i).total_litter := by
  have hadd : 0 < ts i * p.litter_per_tourist := mul_pos (hts i) h0
  have hacc : 0 < (stateAfter p ts i).1 + ts i * p.litter_per_tourist := by linarith
  have hsub : (0:ℚ) < 1 - p.clean_up_efficiency := by linarith
  constructor
  · exact hadd
  · unfold record step
    by_cases hc : i % p.clean_up_frequency = 0 <;>
      simp only [hc, if_true, if_false, ite_true, ite_false] <;>
      nlinarith [mul_pos hacc hsub]

/-- Each day of the clipped series sees at least 50 tourists. -/
lemma clipSeries_pos (raw : ℕ → ℚ) (d : ℕ) : 0 < clipSeries raw d :=
  lt_of_lt_of_le (by norm_num) (le_max_right (raw d) 50)

/-- C10: because the tourist series is clipped to at least 50 and
`litter_per_tourist = 0.01 > 0`, every day of both scenarios has
`litter_added > 0`, every stored `total_litter` is positive, and each day's
stored total is strictly below the next day's pre-cleanup (post-accrual)
litter — in particular this holds from every non-clean-up day. -/
theorem litter_positive_growth (raw : ℕ → ℚ) (i : ℕ) :
    (0 < (record baselineParams (clipSeries raw) i).litter_added ∧
      0 < (record baselineParams (clipSeries raw) i).total_litter ∧
      (record baselineParams (clipSeries raw) i).total_litter <
        (stateAfter baselineParams (clipSeries raw) (i + 1)).1 +
          (record baselineParams (clipSeries raw) (i + 1)).litter_added) ∧
    (0 < (recordAlt alternativeParams (clipSeries raw) i).litter_added ∧
      0 < (recordAlt alternativeParams (clipSeries raw) i).total_litter ∧
      (recordAlt alternativeParams (clipSeries raw) i).total_litter <
        (stateAfterAlt alternativeParams (clipSeries raw) (i + 1)).1 +
          (recordAlt alternativeParams (clipSeries raw) (i + 1)).litter_added) := by
  have hts := clipSeries_pos raw
  have htsn : ∀ d, 0 ≤ clipSeries raw d := fun d => (hts d).le
  have hside : ∀ p : Params, 0 < p.litter_per_tourist → 0 ≤ p.clean_up_efficiency →
      p.clean_up_efficiency < 1 → 0 ≤ p.erosion_rate → 0 ≤ p.maintenance_improvement →
      p.min_quality ≤ 100 →
      0 < (record p (clipSeries raw) i).litter_added ∧
        0 < (record p (clipSeries raw) i).total_litter ∧
        (record p (clipSeries raw) i).total_litter <
          (stateAfter p (clipSeries raw) (i + 1)).1 +
            (record p (clipSeries raw) (i + 1)).litter_added := by
    intro p hp0 hp1 hp2 hp3 hp4 hp5
    have hst : ∀ j, 0 ≤ (stateAfter p (clipSeries raw) j).1 := fun j =>
      (state_invariant p hp0.le hp1 hp2.le hp3 hp4 hp5 (clipSeries raw) htsn j).1
    have hi := record_litter_pos p hp0 hp2 (clipSeries raw) hts i (hst i)
    have hnext := record_litter_pos p hp0 hp2 (clipSeries raw) hts (i + 1) (hst (i + 1))
    have he : (stateAfter p (clipSeries raw) (i + 1)).1 =
        (record p (clipSeries raw) i).total_litter := rfl
    refine ⟨hi.1, hi.2, ?_⟩
    rw [he]
    linarith [hnext.1]
  constructor
  · exact hside baselineParams (by norm_num [baselineParams]) (by norm_num [baselineParams])
      (by norm_num [baselineParams]) (by norm_num [baselineParams])
      (by norm_num [baselineParams]) (by norm_num [baselineParams])
  · have h := hside alternativeParams (by norm_num [alternativeParams])
      (by norm_num [alternativeParams]) (by norm_num [alternativeParams])
      (by norm_num [alternativeParams]) (by norm_num [alternativeParams])
      (by norm_num [alternativeParams])
    rwa [← recordAlt_eq, ← recordAlt_eq, ← stateAfterAlt_eq] at h

end Simulation
